import Mathlib

/-!
Shallow embedding of the gimli chaos-engineering runner (Go).

Source layout:
* `domain/models.go`   — configuration data model and validation
* `runner` package     — `RunExperiment`, `RunProbes`, `executeProbe`,
                         `executeScenario`, `executeAttack`
* `saboteur/fly_saboteur.go` — the Fly.io provider (`ListTargets`, `RestartMachine`)

External effects (HTTP probe calls, the Fly.io API, the scheduler of the
tick/deadline `select` loop) are modelled as oracles supplied to the embedded
functions: a probe-network oracle maps each probe to the outcome of its HTTP
request, the provider listing is the already-resolved result of the Fly API
call, and the scenario loop consumes a finite list of scheduler events, each
event being one resolution of the Go `select` (either the deadline context
firing or a ticker tick carrying that tick environment: the random index
drawn by `rand.Intn`, the restart call result, and the probe network state
for the post-attack validation).  Time delays (`time.Sleep`) and provider
calls are recorded in an action trace so that ordering properties are
statable.
-/

namespace Gimli

/-! ## Data model (`domain/models.go`) -/

/-- Go durations are `int64` nanoseconds; we model them as `Int`. -/
abbrev Duration := Int

/-- Embeds `HTTPProbe` of `domain/models.go`: HTTP-specific probe configuration. -/
structure HTTPProbe where
  url : String
  method : String
  expectedStatus : Int
  headers : List (String × String)
  deriving Repr, DecidableEq

/-- Embeds `Probe` of `domain/models.go`: a named health check. -/
structure Probe where
  name : String
  type_ : String
  http : Option HTTPProbe
  timeout : Duration
  deriving Repr, DecidableEq

/-- Embeds `Selector` of `domain/models.go`. -/
structure Selector where
  app : String
  deriving Repr, DecidableEq

/-- Embeds `Scenario` of `domain/models.go`. -/
structure Scenario where
  type_ : String
  selector : Selector
  duration : Duration
  interval : Duration
  deriving Repr, DecidableEq

/-- Embeds `SteadyState` of `domain/models.go`. -/
structure SteadyState where
  probes : List Probe
  deriving Repr, DecidableEq

/-- Embeds `Experiment` of `domain/models.go`. -/
structure Experiment where
  name : String
  description : String
  steadyState : SteadyState
  scenario : Scenario
  deriving Repr, DecidableEq

/-- One second in nanoseconds (`time.Second`). -/
def second : Int := 1000000000

/-- Embeds `Probe.Validate` of `domain/models.go` (lines 74-104).  The Go method
mutates the probe in place to apply defaults; we return the updated probe.
Error strings follow the Go messages. -/
def Probe.validate (p : Probe) : Except String Probe :=
  if p.name = "" then .error "probe name is required"
  else if p.type_ ≠ "http" then .error "only http probe type is supported"
  else
    match p.http with
    | none => .error "http configuration is required for http probes"
    | some h =>
      if h.url = "" then .error "http url is required"
      else
        let h1 := if h.method = "" then { h with method := "GET" } else h
        let h2 := if h1.expectedStatus = 0 then { h1 with expectedStatus := 200 } else h1
        let p1 := { p with http := some h2 }
        let p2 := if p1.timeout = 0 then { p1 with timeout := 30 * second } else p1
        .ok p2

/-- Embeds `Scenario.Validate` of `domain/models.go` (lines 107-129). -/
def Scenario.validate (s : Scenario) : Except String Unit :=
  if s.type_ ≠ "restart_random" then .error "only restart_random scenario type is supported"
  else if s.selector.app = "" then .error "app selector is required"
  else if s.duration ≤ 0 then .error "positive duration is required"
  else if s.interval ≤ 0 then .error "positive interval is required"
  else if s.interval > s.duration then .error "interval cannot be greater than duration"
  else .ok ()

/-- The per-probe validation pass of `Experiment.Validate` (the `for i, probe`
loop): the first failing probe aborts validation with its index in the
message. -/
def validateProbeList : Nat → List Probe → Except String Unit
  | _, [] => .ok ()
  | i, p :: rest =>
    match p.validate with
    | .error e => .error ("probe " ++ toString i ++ ": " ++ e)
    | .ok _ => validateProbeList (i + 1) rest

/-- Embeds `Experiment.Validate` of `domain/models.go` (lines 51-71). -/
def Experiment.validate (e : Experiment) : Except String Unit :=
  if e.name = "" then .error "experiment name is required"
  else if e.steadyState.probes.isEmpty then .error "at least one probe is required"
  else
    match validateProbeList 0 e.steadyState.probes with
    | .error msg => .error msg
    | .ok _ =>
      match e.scenario.validate with
      | .error msg => .error ("scenario: " ++ msg)
      | .ok _ => .ok ()

/-! ## Probe executor (`runner.executeProbe`) -/

/-- Outcome of the HTTP request a probe performs, as supplied by the network
environment: request construction failure, transport failure (including the
probe timeout), or a response with a status code (the body is drained and
discarded by the code, so only the status matters). -/
inductive HttpOutcome where
  | requestError (msg : String)
  | transportError (msg : String)
  | response (status : Int)

/-- A probe-network oracle: what the world answers to each probe request. -/
abbrev ProbeNet := Probe → HttpOutcome

/-- Structured rendering of the errors `executeProbe` can return. -/
inductive ProbeError where
  | unsupportedType (t : String)
  | missingHTTPConfig
  | creatingRequest (msg : String)
  | executingRequest (msg : String)
  | unexpectedStatus (got want : Int)
  deriving Repr, DecidableEq

/-- Embeds `Runner.executeProbe` (runner package, lines 98-139): reject non-http
kinds, require the HTTP config, perform the request, compare the status code
to the expected one. -/
def executeProbe (net : ProbeNet) (probe : Probe) : Except ProbeError Unit :=
  if probe.type_ ≠ "http" then .error (.unsupportedType probe.type_)
  else
    match probe.http with
    | none => .error .missingHTTPConfig
    | some h =>
      match net probe with
      | .requestError msg => .error (.creatingRequest msg)
      | .transportError msg => .error (.executingRequest msg)
      | .response code =>
        if code ≠ h.expectedStatus then .error (.unexpectedStatus code h.expectedStatus)
        else .ok ()

/-! ## Steady-state validator (`runner.RunProbes`) -/

/-- Embeds `Runner.RunProbes` (runner package, lines 64-95).  The Go code launches
one goroutine per probe, waits for all of them, then collects every failure
from the error channel; the verdict and the membership of the failure set are
deterministic (only the order of the collected failures is scheduling
dependent; we fix it to input order). -/
def RunProbes (net : ProbeNet) (probes : List Probe) :
    Except (List (String × ProbeError)) Unit :=
  let failures := probes.filterMap fun p =>
    match executeProbe net p with
    | .error e => some (p.name, e)
    | .ok _ => none
  if failures.isEmpty then .ok () else .error failures

/-! ## Fly.io saboteur (`saboteur/fly_saboteur.go`) -/

/-- Embeds `Target` of `saboteur/fly_saboteur.go`. -/
structure Target where
  id : String
  name : String
  state : String
  region : String
  metadata : List (String × String)
  deriving Repr, DecidableEq, Inhabited

/-- The shape of a machine entry decoded from the Fly machines API response. -/
structure Machine where
  id : String
  name : String
  state : String
  region : String
  deriving Repr, DecidableEq

/-- The resolved outcome of the `GET /apps/\x7bapp\x7d/machines` call
`FlySaboteur.ListTargets` performs, as supplied by the environment: request
construction failure, transport failure, or a response with a status code
and (for the decoder) either the decoded machine list or a JSON decode
error. -/
inductive FlyListOutcome where
  | requestError (msg : String)
  | transportError (msg : String)
  | response (status : Int) (decoded : Except String (List Machine))

/-- Structured rendering of the errors `FlySaboteur.ListTargets` can
return. -/
inductive ListError where
  | creatingRequest (msg : String)
  | executingRequest (msg : String)
  | unexpectedStatus (status : Int)
  | decoding (msg : String)
  | noEligibleTargets (app : String)
  deriving Repr, DecidableEq

/-- The state filter of `FlySaboteur.ListTargets`: only machines that are
started or running become targets. -/
def filterTargets (machines : List Machine) : List Target :=
  machines.filterMap fun m =>
    if m.state ≠ "started" ∧ m.state ≠ "running" then none
    else some ⟨m.id, m.name, m.state, m.region, []⟩

/-- Embeds `FlySaboteur.ListTargets` (`saboteur/fly_saboteur.go`, lines 52-109):
perform the request, require status 200, decode, filter to started/running
machines, and fail if the filtered set is empty. -/
def ListTargets (app : String) (resp : FlyListOutcome) :
    Except ListError (List Target) :=
  match resp with
  | .requestError msg => .error (.creatingRequest msg)
  | .transportError msg => .error (.executingRequest msg)
  | .response status decoded =>
    if status ≠ 200 then .error (.unexpectedStatus status)
    else
      match decoded with
      | .error msg => .error (.decoding msg)
      | .ok machines =>
        let targets := filterTargets machines
        if targets.isEmpty then .error (.noEligibleTargets app)
        else .ok targets

/-! ## Scenario loop (`runner.executeScenario`, `runner.executeAttack`) -/

/-- Externally visible actions of the scenario loop, recorded in order so
that sequencing properties (settle delay before validation, no attack after
abort) are statable.  `runProbes` marks a post-attack steady-state
validation; `sleep` is `time.Sleep`. -/
inductive Action where
  | listTargets (app : String)
  | restartMachine (app : String) (machineID : String)
  | sleep (ns : Int)
  | runProbes
  deriving Repr, DecidableEq

/-- The environment of one ticker tick: the value drawn by `rand.Intn`
(taken modulo the target count), the result of the `RestartMachine` call the
saboteur would return on this tick, and the probe-network state for the
post-attack validation. -/
structure TickEnv where
  idx : Nat
  restart : Except String Unit
  net : ProbeNet

/-- One resolution of the `select` in `executeScenario`: either the duration
context fires (deadline) or the ticker fires with this tick
environment. -/
inductive Event where
  | deadline
  | tick (env : TickEnv)

/-- True exactly on the deadline event. -/
def Event.isDeadline : Event → Bool
  | .deadline => true
  | .tick _ => false

/-- Structured rendering of the errors `executeAttack` can return. -/
inductive AttackError where
  | unsupportedScenarioType (t : String)
  | noTargetsAvailable
  | restartingMachine (machineID : String) (msg : String)
  deriving Repr, DecidableEq

/-- Structured rendering of the errors `executeScenario` can return. -/
inductive ScenarioError where
  | listingTargets (e : ListError)
  | steadyStateLost (failures : List (String × ProbeError))
  deriving Repr, DecidableEq

/-- How a run of the scenario loop ends on a finite event list: `completed`
is the `return nil` on deadline expiry (with the attack counter), `aborted`
an error return, `running` means the event list was exhausted with the loop
still waiting in the `select`. -/
inductive LoopOutcome where
  | completed (attackCount : Nat)
  | aborted (e : ScenarioError)
  | running (attackCount : Nat)
  deriving Repr, DecidableEq

/-- The settle delay of `executeAttack`: `time.Sleep(2 * time.Second)`. -/
def settleDelay : Int := 2 * second

/-- Embeds `Runner.executeAttack` (runner package, lines 189-213): reject
non-`restart_random` scenarios, fail when the target snapshot is empty,
restart a uniformly chosen target, and on success sleep the settle delay.
Returns the recorded actions together with the result. -/
def executeAttack (env : TickEnv) (scenario : Scenario) (targets : List Target) :
    List Action × Except AttackError Unit :=
  if scenario.type_ ≠ "restart_random" then
    ([], .error (.unsupportedScenarioType scenario.type_))
  else if targets.isEmpty then
    ([], .error .noTargetsAvailable)
  else
    let target := targets.getD (env.idx % targets.length) default
    match env.restart with
    | .error msg =>
      ([.restartMachine scenario.selector.app target.id],
       .error (.restartingMachine target.id msg))
    | .ok _ =>
      ([.restartMachine scenario.selector.app target.id, .sleep settleDelay],
       .ok ())

/-- The `for/select` loop of `Runner.executeScenario` (runner package, lines
165-185), consuming scheduler events: the deadline returns `nil` with the
attack count; a tick runs `executeAttack`, and on attack failure logs and
continues; on attack success it increments the counter and validates steady
state, aborting on validation failure. -/
def scenarioLoop (scenario : Scenario) (probes : List Probe) (targets : List Target) :
    List Event → Nat → List Action × LoopOutcome
  | [], n => ([], .running n)
  | .deadline :: _, n => ([], .completed n)
  | .tick env :: rest, n =>
    match executeAttack env scenario targets with
    | (acts, .error _) =>
      let r := scenarioLoop scenario probes targets rest n
      (acts ++ r.1, r.2)
    | (acts, .ok _) =>
      match RunProbes env.net probes with
      | .error fs =>
        (acts ++ [.runProbes], .aborted (.steadyStateLost fs))
      | .ok _ =>
        let r := scenarioLoop scenario probes targets rest (n + 1)
        (acts ++ .runProbes :: r.1, r.2)

/-- Embeds `Runner.executeScenario` (runner package, lines 142-186): fetch the
target snapshot once (`listing` is the resolved result of the saboteur call,
fatal on failure), then run the tick/deadline loop over it. -/
def executeScenario (listing : Except ListError (List Target))
    (experiment : Experiment) (events : List Event) : List Action × LoopOutcome :=
  match listing with
  | .error e =>
    ([.listTargets experiment.scenario.selector.app], .aborted (.listingTargets e))
  | .ok targets =>
    let r := scenarioLoop experiment.scenario experiment.steadyState.probes targets events 0
    (.listTargets experiment.scenario.selector.app :: r.1, r.2)

/-! ## Experiment orchestrator (`runner.RunExperiment`) -/

/-- Structured rendering of the errors `RunExperiment` can return, one per
wrap site. -/
inductive RunError where
  | preSteadyState (failures : List (String × ProbeError))
  | scenarioFailed (e : ScenarioError)
  | postSteadyState (failures : List (String × ProbeError))
  deriving Repr, DecidableEq

/-- Embeds `Runner.RunExperiment` (runner package, lines 36-61): validate steady
state, execute the scenario, validate steady state again.  `preNet` and
`postNet` are the probe-network states at the two validations; `none` means
the scenario loop is still blocked (the event list ran out), in which case
the Go function has not returned. -/
def RunExperiment (preNet : ProbeNet) (listing : Except ListError (List Target))
    (events : List Event) (postNet : ProbeNet) (experiment : Experiment) :
    Option (Except RunError Unit) :=
  match RunProbes preNet experiment.steadyState.probes with
  | .error fs => some (.error (.preSteadyState fs))
  | .ok _ =>
    match (executeScenario listing experiment events).2 with
    | .aborted e => some (.error (.scenarioFailed e))
    | .running _ => none
    | .completed _ =>
      match RunProbes postNet experiment.steadyState.probes with
      | .error fs => some (.error (.postSteadyState fs))
      | .ok _ => some (.ok ())

/-! ## Concrete fixtures used by witnesses and counterexamples -/

/-- A probe network where every request answers 200. -/
def okNet : ProbeNet := fun _ => .response 200

/-- A probe network where every request answers 500. -/
def failNet : ProbeNet := fun _ => .response 500

/-- A probe network where only the probe named `gamma` answers 200. -/
def mixedNet : ProbeNet := fun p =>
  if p.name = "gamma" then .response 200 else .response 500

/-- A well-formed HTTP probe configuration. -/
def httpOK : HTTPProbe := ⟨"http://app.internal/health", "GET", 200, []⟩

/-- A valid http probe named alpha. -/
def probeA : Probe := ⟨"alpha", "http", some httpOK, 30 * second⟩

/-- A valid http probe named beta. -/
def probeB : Probe := ⟨"beta", "http", some httpOK, 30 * second⟩

/-- A valid http probe named gamma. -/
def probeC : Probe := ⟨"gamma", "http", some httpOK, 30 * second⟩

/-- A started machine target. -/
def target0 : Target := ⟨"m1", "machine-1", "started", "iad", []⟩

/-- A valid restart_random scenario over app demo. -/
def scenario0 : Scenario := ⟨"restart_random", ⟨"demo"⟩, 3 * second, 1 * second⟩

/-- A valid experiment with one probe. -/
def exp0 : Experiment := ⟨"exp", "demo experiment", ⟨[probeA]⟩, scenario0⟩

/-- The same experiment with an unsupported scenario type. -/
def expBad : Experiment :=
  { exp0 with scenario := { scenario0 with type_ := "kill_random" } }

/-- A probe of the unsupported kind tcp. -/
def probeTCP : Probe := ⟨"alpha", "tcp", some httpOK, 30 * second⟩

/-- An experiment whose steady state contains the unsupported-kind probe. -/
def expTCP : Experiment := ⟨"exp", "tcp experiment", ⟨[probeTCP]⟩, scenario0⟩

/-- A tick whose restart succeeds and whose probes pass. -/
def tickOK : TickEnv := ⟨0, .ok (), okNet⟩

/-- A tick whose restart succeeds but whose post-attack probes fail. -/
def tickRegress : TickEnv := ⟨0, .ok (), failNet⟩

/-- A tick whose restart call fails. -/
def tickRestartFail : TickEnv := ⟨0, .error "machine gone", okNet⟩

/-! ## Theorems -/

/-- C1: RunExperiment sequences its three steps with each gating the next:
a pre-chaos steady-state failure returns that error (for every listing,
event schedule and post network, so the scenario loop is never entered); a
scenario-loop error propagates for every post network (the post-chaos
validation does not run); and after a completed loop a failing final
validation still makes RunExperiment return an error. -/
theorem runExperiment_gating :
    (∀ pre listing events post (e : Experiment) fs,
      RunProbes pre e.steadyState.probes = .error fs →
      RunExperiment pre listing events post e =
        some (.error (.preSteadyState fs))) ∧
    (∀ pre listing events post (e : Experiment) err,
      RunProbes pre e.steadyState.probes = .ok () →
      (executeScenario listing e events).2 = .aborted err →
      RunExperiment pre listing events post e =
        some (.error (.scenarioFailed err))) ∧
    (∀ pre listing events post (e : Experiment) n fs,
      RunProbes pre e.steadyState.probes = .ok () →
      (executeScenario listing e events).2 = .completed n →
      RunProbes post e.steadyState.probes = .error fs →
      RunExperiment pre listing events post e =
        some (.error (.postSteadyState fs))) := by
  refine ⟨?_, ?_, ?_⟩ <;> intros <;> simp [RunExperiment, *]

/-- C1 witness: the third gate at a concrete experiment where the probes
pass before the scenario and fail after it. -/
theorem runExperiment_gating_witness :
    RunExperiment okNet (.ok [target0]) [Event.tick tickOK, Event.deadline]
        failNet exp0 =
      some (.error (.postSteadyState
        [("alpha", ProbeError.unexpectedStatus 500 200)])) :=
  runExperiment_gating.2.2 okNet (.ok [target0])
    [Event.tick tickOK, Event.deadline] failNet exp0 1
    [("alpha", ProbeError.unexpectedStatus 500 200)]
    (by rfl) (by rfl) (by rfl)

/-- C10: RunProbes on an empty probe collection succeeds vacuously (for
every network oracle), while configuration validation rejects an experiment
with no probes. -/
theorem runProbes_empty_vacuous :
    (∀ net, RunProbes net [] = .ok ()) ∧
    (∀ e : Experiment, e.name ≠ "" → e.steadyState.probes = [] →
      e.validate = .error "at least one probe is required") := by
  constructor
  · intro net; rfl
  · intro e hname hprobes
    simp [Experiment.validate, hname, hprobes]

/-- C10 witness: the empty-probe validation failure on a concrete
experiment. -/
theorem runProbes_empty_vacuous_witness :
    Experiment.validate ⟨"exp", "d", ⟨[]⟩, scenario0⟩ =
      .error "at least one probe is required" :=
  runProbes_empty_vacuous.2 ⟨"exp", "d", ⟨[]⟩, scenario0⟩
    (by decide) (by rfl)

/-- C7 counterexample: an unsupported scenario kind is not fatal to the
experiment.  With scenario type kill_random the attack on every tick fails
with the unsupported-kind error, yet the loop continues to the deadline and
RunExperiment returns success. -/
theorem unsupportedScenario_nonfatal_cex :
    expBad.scenario.type_ ≠ "restart_random" ∧
    (executeAttack tickOK expBad.scenario [target0]).2 =
      .error (.unsupportedScenarioType "kill_random") ∧
    RunExperiment okNet (.ok [target0]) [Event.tick tickOK, Event.deadline]
        okNet expBad = some (.ok ()) :=
  ⟨by decide, by rfl, by rfl⟩

/-- C7 amended: unsupported-kind errors always arise where evaluated — a
non-http probe kind fails executeProbe (so steady-state validation fails,
which is fatal pre-chaos), and a non-restart_random scenario kind is
rejected by configuration validation and fails executeAttack — but inside
the scenario loop an unsupported scenario kind is a per-tick attack failure
that the loop skips rather than aborts. -/
theorem unsupportedKind_errors :
    (∀ net (p : Probe), p.type_ ≠ "http" →
      executeProbe net p = .error (.unsupportedType p.type_)) ∧
    (∀ net (p : Probe) probes, p ∈ probes → p.type_ ≠ "http" →
      ∃ fs, RunProbes net probes = .error fs ∧
        (p.name, ProbeError.unsupportedType p.type_) ∈ fs) ∧
    (∀ pre listing events post (e : Experiment) (p : Probe),
      p ∈ e.steadyState.probes → p.type_ ≠ "http" →
      ∃ fs, RunExperiment pre listing events post e =
          some (.error (.preSteadyState fs)) ∧
        (p.name, ProbeError.unsupportedType p.type_) ∈ fs) ∧
    (∀ s : Scenario, s.type_ ≠ "restart_random" →
      s.validate = .error "only restart_random scenario type is supported") ∧
    (∀ env (s : Scenario) targets, s.type_ ≠ "restart_random" →
      executeAttack env s targets =
        ([], .error (.unsupportedScenarioType s.type_))) ∧
    (∀ (s : Scenario) probes targets env rest n, s.type_ ≠ "restart_random" →
      scenarioLoop s probes targets (Event.tick env :: rest) n =
        scenarioLoop s probes targets rest n) := by
  have hfail : ∀ net (p : Probe) probes, p ∈ probes → p.type_ ≠ "http" →
      ∃ fs, RunProbes net probes = .error fs ∧
        (p.name, ProbeError.unsupportedType p.type_) ∈ fs := by
    intro net p probes hmem hp
    have hin : (p.name, ProbeError.unsupportedType p.type_) ∈
        probes.filterMap fun q =>
          match executeProbe net q with
          | .error e => some (q.name, e)
          | .ok _ => none :=
      List.mem_filterMap.mpr ⟨p, hmem, by simp [executeProbe, hp]⟩
    have hne : (probes.filterMap fun q =>
        match executeProbe net q with
        | .error e => some (q.name, e)
        | .ok _ => none) ≠ [] := by
      intro h0
      rw [h0] at hin
      exact absurd hin (List.not_mem_nil _)
    have hemp : (probes.filterMap fun q =>
        match executeProbe net q with
        | .error e => some (q.name, e)
        | .ok _ => none).isEmpty = false := List.isEmpty_eq_false.mpr hne
    exact ⟨_, by simp [RunProbes, hemp], hin⟩
  refine ⟨?_, hfail, ?_, ?_, ?_, ?_⟩
  · intro net p hp
    simp [executeProbe, hp]
  · intro pre listing events post e p hmem hp
    obtain ⟨fs, hrun, hin⟩ := hfail pre p e.steadyState.probes hmem hp
    exact ⟨fs, by simp [RunExperiment, hrun], hin⟩
  · intro s hs
    simp [Scenario.validate, hs]
  · intro env s targets hs
    simp [executeAttack, hs]
  · intro s probes targets env rest n hs
    simp [scenarioLoop, executeAttack, hs]

/-- C7 amended witness: with the tcp probe in its steady state, the
experiment aborts at the pre-chaos validation with an aggregate failure
naming that probe and its unsupported-kind error. -/
theorem unsupportedKind_errors_witness :
    ∃ fs, RunExperiment okNet (.ok [target0]) [Event.deadline] okNet expTCP =
        some (.error (.preSteadyState fs)) ∧
      ("alpha", ProbeError.unsupportedType "tcp") ∈ fs :=
  unsupportedKind_errors.2.2.1 okNet (.ok [target0]) [Event.deadline] okNet
    expTCP probeTCP (by simp [expTCP, probeTCP]) (by decide)

/-- C2: steady-state validation succeeds iff every probe succeeds, and on
failure the aggregate error names every failing probe — each probe is
executed and its failure collected regardless of the other probes
outcomes. -/
theorem runProbes_all_iff (net : ProbeNet) (probes : List Probe) :
    (RunProbes net probes = .ok () ↔
      ∀ p ∈ probes, executeProbe net p = .ok ()) ∧
    (∀ fs, RunProbes net probes = .error fs →
      ∀ p ∈ probes, ∀ e, executeProbe net p = .error e → (p.name, e) ∈ fs) := by
  have hnone : ∀ p : Probe,
      ((match executeProbe net p with
        | Except.error e => some (p.name, e)
        | Except.ok _ => none) = none ↔ executeProbe net p = .ok ()) := by
    intro p
    cases h : executeProbe net p with
    | error e => simp
    | ok u => cases u; simp
  constructor
  · simp only [RunProbes]
    split
    · next hemp =>
      rw [List.isEmpty_iff, List.filterMap_eq_nil_iff] at hemp
      constructor
      · intro _ p hp
        exact (hnone p).mp (hemp p hp)
      · intro _; rfl
    · next hemp =>
      constructor
      · intro h; exact absurd h (by simp)
      · intro hall
        exact absurd (by
          rw [List.isEmpty_iff, List.filterMap_eq_nil_iff]
          intro p hp
          exact (hnone p).mpr (hall p hp)) hemp
  · intro fs hrun p hp e he
    simp only [RunProbes] at hrun
    split at hrun
    · exact absurd hrun (by simp)
    · cases hrun
      exact List.mem_filterMap.mpr ⟨p, hp, by simp [he]⟩

/-- C2 witness: with two failing probes and a passing one, the aggregate
error names both failing probes. -/
theorem runProbes_all_iff_witness :
    ("alpha", ProbeError.unexpectedStatus 500 200) ∈
      [("alpha", ProbeError.unexpectedStatus 500 200),
       ("beta", ProbeError.unexpectedStatus 500 200)] ∧
    ("beta", ProbeError.unexpectedStatus 500 200) ∈
      [("alpha", ProbeError.unexpectedStatus 500 200),
       ("beta", ProbeError.unexpectedStatus 500 200)] :=
  ⟨(runProbes_all_iff mixedNet [probeA, probeB, probeC]).2
      [("alpha", .unexpectedStatus 500 200), ("beta", .unexpectedStatus 500 200)]
      (by rfl) probeA (by simp) (.unexpectedStatus 500 200) (by rfl),
   (runProbes_all_iff mixedNet [probeA, probeB, probeC]).2
      [("alpha", .unexpectedStatus 500 200), ("beta", .unexpectedStatus 500 200)]
      (by rfl) probeB (by simp) (.unexpectedStatus 500 200) (by rfl)⟩

/-- C3: deadline expiry is the only clean exit of the scenario loop: when
the deadline event is delivered the loop returns success immediately,
whatever events (including imminent ticks) remain pending; any run ending
in success consumed a deadline event; and a target-listing failure ends the
scenario as an error. -/
theorem scenario_deadline_only_clean_exit :
    (∀ (s : Scenario) probes targets rest n,
      scenarioLoop s probes targets (Event.deadline :: rest) n =
        ([], .completed n)) ∧
    (∀ (s : Scenario) probes targets events n m,
      (scenarioLoop s probes targets events n).2 = .completed m →
      ∃ ev ∈ events, ev.isDeadline = true) ∧
    (∀ e (experiment : Experiment) events,
      (executeScenario (.error e) experiment events).2 =
        .aborted (.listingTargets e)) := by
  refine ⟨?_, ?_, ?_⟩
  · intro s probes targets rest n
    rfl
  · intro s probes targets events
    induction events with
    | nil =>
      intro n m h
      simp [scenarioLoop] at h
    | cons ev rest ih =>
      intro n m h
      cases ev with
      | deadline =>
        exact ⟨Event.deadline, List.mem_cons_self _ _, rfl⟩
      | tick env =>
        rw [scenarioLoop] at h
        rcases hA : executeAttack env s targets with ⟨acts, res⟩
        rw [hA] at h
        cases res with
        | error err =>
          simp only at h
          obtain ⟨ev, hmem, hdl⟩ := ih n m h
          exact ⟨ev, List.mem_cons_of_mem _ hmem, hdl⟩
        | ok u =>
          simp only at h
          rcases hR : RunProbes env.net probes with fs | u2
          · rw [hR] at h
            simp at h
          · rw [hR] at h
            simp only at h
            obtain ⟨ev, hmem, hdl⟩ := ih (n + 1) m h
            exact ⟨ev, List.mem_cons_of_mem _ hmem, hdl⟩
  · intro e experiment events
    rfl

/-- C3 witness: a run with one tick before the deadline completes, so the
event list contains a deadline event. -/
theorem scenario_deadline_only_clean_exit_witness :
    ∃ ev ∈ [Event.tick tickOK, Event.deadline], ev.isDeadline = true :=
  scenario_deadline_only_clean_exit.2.1 scenario0 [probeA] [target0]
    [Event.tick tickOK, Event.deadline] 0 1 (by rfl)

/-- C4: a failed steady-state validation right after a successful attack
aborts the loop at once — the returned trace ends at that validation
(no further attacks, whatever events remain) — and RunExperiment reports
the propagated error. -/
theorem scenarioLoop_abort_on_regression :
    (∀ (s : Scenario) probes targets env rest n acts fs,
      executeAttack env s targets = (acts, .ok ()) →
      RunProbes env.net probes = .error fs →
      scenarioLoop s probes targets (Event.tick env :: rest) n =
        (acts ++ [Action.runProbes], .aborted (.steadyStateLost fs))) ∧
    (∀ pre listing events post (e : Experiment) fs,
      RunProbes pre e.steadyState.probes = .ok () →
      (executeScenario listing e events).2 = .aborted (.steadyStateLost fs) →
      RunExperiment pre listing events post e =
        some (.error (.scenarioFailed (.steadyStateLost fs)))) := by
  constructor
  · intro s probes targets env rest n acts fs hA hR
    simp [scenarioLoop, hA, hR]
  · intro pre listing events post e fs hpre habort
    simp [RunExperiment, hpre, habort]

/-- C4 witness: a concrete regression tick — the loop stops right after the
failed validation even though a further tick and the deadline were
pending, and the experiment fails. -/
theorem scenarioLoop_abort_on_regression_witness :
    scenarioLoop scenario0 [probeA] [target0]
        [Event.tick tickRegress, Event.tick tickOK, Event.deadline] 0 =
      ([Action.restartMachine "demo" "m1", Action.sleep settleDelay] ++
        [Action.runProbes],
       .aborted (.steadyStateLost
         [("alpha", ProbeError.unexpectedStatus 500 200)])) :=
  (scenarioLoop_abort_on_regression).1 scenario0 [probeA] [target0]
    tickRegress [Event.tick tickOK, Event.deadline] 0
    [Action.restartMachine "demo" "m1", Action.sleep settleDelay]
    [("alpha", ProbeError.unexpectedStatus 500 200)] (by rfl) (by rfl)

/-- Shape of the actions of a single attack: it never runs probes itself
and it calls the restart endpoint at most once. -/
theorem executeAttack_actions_shape (env : TickEnv) (s : Scenario)
    (targets : List Target) :
    Action.runProbes ∉ (executeAttack env s targets).1 ∧
    (executeAttack env s targets).1.countP
      (fun a => match a with
        | .restartMachine _ _ => true
        | _ => false) ≤ 1 := by
  unfold executeAttack
  split
  · simp
  · split
    · simp
    · cases env.restart <;> simp [List.countP, List.countP.go]

/-- C5: a failed attack is non-fatal and non-retried: on a tick whose
attack errors, the loop result is that of the remaining events with the
attack counter unchanged (no abort), the tick trace runs no steady-state
validation and at most one restart call, and an empty snapshot is one such
failing case. -/
theorem scenarioLoop_attack_failure_nonfatal :
    ∀ (s : Scenario) probes targets env rest n err,
      (executeAttack env s targets).2 = .error err →
      (scenarioLoop s probes targets (Event.tick env :: rest) n =
        ((executeAttack env s targets).1 ++
          (scenarioLoop s probes targets rest n).1,
         (scenarioLoop s probes targets rest n).2)) ∧
      Action.runProbes ∉ (executeAttack env s targets).1 ∧
      (executeAttack env s targets).1.countP
        (fun a => match a with
          | .restartMachine _ _ => true
          | _ => false) ≤ 1 ∧
      (targets.isEmpty = true → s.type_ = "restart_random" →
        (executeAttack env s targets).2 = .error .noTargetsAvailable) := by
  intro s probes targets env rest n err herr
  refine ⟨?_, (executeAttack_actions_shape env s targets).1,
    (executeAttack_actions_shape env s targets).2, ?_⟩
  · rcases hA : executeAttack env s targets with ⟨acts, res⟩
    rw [hA] at herr
    simp only at herr
    subst herr
    simp [scenarioLoop, hA]
  · intro hemp htype
    simp [executeAttack, htype, hemp]

/-- C5 witness: a tick whose restart call fails is skipped and the run
still completes cleanly at the deadline with zero counted attacks. -/
theorem scenarioLoop_attack_failure_nonfatal_witness :
    scenarioLoop scenario0 [probeA] [target0]
        [Event.tick tickRestartFail, Event.deadline] 0 =
      ((executeAttack tickRestartFail scenario0 [target0]).1 ++
        (scenarioLoop scenario0 [probeA] [target0] [Event.deadline] 0).1,
       (scenarioLoop scenario0 [probeA] [target0] [Event.deadline] 0).2) :=
  (scenarioLoop_attack_failure_nonfatal scenario0 [probeA] [target0]
    tickRestartFail [Event.deadline] 0
    (.restartingMachine "m1" "machine gone") (by rfl)).1

/-- C6: an empty eligible-target listing is fatal at scenario entry: the
provider returns the no-eligible-targets error instead of an empty list
(and never returns an empty list), and a listing failure makes the
scenario loop abort before consuming any event, with no restart in its
trace. -/
theorem listTargets_empty_fatal :
    (∀ app machines, filterTargets machines = [] →
      ListTargets app (.response 200 (.ok machines)) =
        .error (.noEligibleTargets app)) ∧
    (∀ app resp ts, ListTargets app resp = .ok ts → ts ≠ []) ∧
    (∀ e (experiment : Experiment) events,
      executeScenario (.error e) experiment events =
        ([.listTargets experiment.scenario.selector.app],
         .aborted (.listingTargets e))) := by
  refine ⟨?_, ?_, ?_⟩
  · intro app machines hfil
    simp [ListTargets, hfil]
  · intro app resp ts h hts
    subst hts
    cases resp with
    | requestError m => simp [ListTargets] at h
    | transportError m => simp [ListTargets] at h
    | response status decoded =>
      by_cases hst : status ≠ 200
      · simp [ListTargets, hst] at h
      · cases decoded with
        | error m => simp [ListTargets, hst] at h
        | ok machines =>
          by_cases hemp : (filterTargets machines).isEmpty
          · simp [ListTargets, hst, hemp] at h
          · simp [ListTargets, hst, hemp] at h
            exact hemp (by simp [h])
  · intro e experiment events
    rfl

/-- C6 witness: a response whose only machine is stopped filters to the
empty set and yields the no-eligible-targets error. -/
theorem listTargets_empty_fatal_witness :
    ListTargets "demo"
        (.response 200 (.ok [⟨"m1", "machine-1", "stopped", "iad"⟩])) =
      .error (.noEligibleTargets "demo") :=
  listTargets_empty_fatal.1 "demo" [⟨"m1", "machine-1", "stopped", "iad"⟩]
    (by rfl)

/-- C8: after a reported-successful injection the attack records the settle
delay before returning, so the loop post-attack validation comes after
restart and sleep in that order; a failed injection records the restart
call alone, with no sleep. -/
theorem executeAttack_settle_delay :
    ∀ env (s : Scenario) targets, s.type_ = "restart_random" → targets ≠ [] →
      (env.restart = .ok () →
        executeAttack env s targets =
          ([.restartMachine s.selector.app
              (targets.getD (env.idx % targets.length) default).id,
            .sleep settleDelay], .ok ()) ∧
        (∀ probes rest n, ∃ tl,
          (scenarioLoop s probes targets (Event.tick env :: rest) n).1 =
            .restartMachine s.selector.app
              (targets.getD (env.idx % targets.length) default).id ::
            .sleep settleDelay :: .runProbes :: tl)) ∧
      (∀ msg, env.restart = .error msg →
        executeAttack env s targets =
          ([.restartMachine s.selector.app
              (targets.getD (env.idx % targets.length) default).id],
           .error (.restartingMachine
             (targets.getD (env.idx % targets.length) default).id msg))) := by
  intro env s targets htype hne
  have hemp : targets.isEmpty = false := List.isEmpty_eq_false.mpr hne
  constructor
  · intro hok
    have hA : executeAttack env s targets =
        ([.restartMachine s.selector.app
            (targets.getD (env.idx % targets.length) default).id,
          .sleep settleDelay], .ok ()) := by
      simp [executeAttack, htype, hemp, hok]
    refine ⟨hA, ?_⟩
    intro probes rest n
    rcases hR : RunProbes env.net probes with fs | u
    · exact ⟨[], by simp [scenarioLoop, hA, hR]⟩
    · exact ⟨(scenarioLoop s probes targets rest (n + 1)).1,
        by simp [scenarioLoop, hA, hR]⟩
  · intro msg hmsg
    simp [executeAttack, htype, hemp, hmsg]

/-- C8 witness: the successful-injection trace at a concrete tick is
exactly restart then settle sleep. -/
theorem executeAttack_settle_delay_witness :
    executeAttack tickOK scenario0 [target0] =
      ([.restartMachine "demo" "m1", .sleep settleDelay], .ok ()) :=
  ((executeAttack_settle_delay tickOK scenario0 [target0] (by rfl)
    (by simp)).1 (by rfl)).1

/-- C9: probe validation fails exactly when the name is empty, the type is
not http, the http configuration is absent, or the URL is empty; a probe
that validates keeps its fields except that an unset method becomes GET, an
unset expected status becomes 200, and an unset timeout becomes 30
seconds. -/
theorem probe_validate_defaults (p : Probe) :
    ((∃ msg, p.validate = .error msg) ↔
      (p.name = "" ∨ p.type_ ≠ "http" ∨ p.http = none ∨
        ∃ h, p.http = some h ∧ h.url = "")) ∧
    (∀ q, p.validate = .ok q →
      ∃ h h2, p.http = some h ∧ q.http = some h2 ∧
        h2.url = h.url ∧
        (h.method = "" → h2.method = "GET") ∧
        (h.method ≠ "" → h2.method = h.method) ∧
        (h.expectedStatus = 0 → h2.expectedStatus = 200) ∧
        (h.expectedStatus ≠ 0 → h2.expectedStatus = h.expectedStatus) ∧
        (p.timeout = 0 → q.timeout = 30 * second) ∧
        (p.timeout ≠ 0 → q.timeout = p.timeout)) := by
  constructor
  · by_cases h1 : p.name = ""
    · simp [Probe.validate, h1]
    · by_cases h2 : p.type_ = "http"
      · cases hh : p.http with
        | none => simp [Probe.validate, h1, h2, hh]
        | some h =>
          by_cases h4 : h.url = ""
          · simp [Probe.validate, h1, h2, hh, h4]
          · simp [Probe.validate, h1, h2, hh, h4]
      · simp [Probe.validate, h1, h2]
  · intro q hq
    unfold Probe.validate at hq
    by_cases h1 : p.name = ""
    · simp [h1] at hq
    · by_cases h2 : p.type_ = "http"
      · cases hh : p.http with
        | none => simp [h1, h2, hh] at hq
        | some h =>
          by_cases h4 : h.url = ""
          · simp [h1, h2, hh, h4] at hq
          · simp only [h1, h2, hh, h4, if_neg, if_true, if_false] at hq
            by_cases hm : h.method = "" <;>
              by_cases hst : h.expectedStatus = 0 <;>
                by_cases ht : p.timeout = 0 <;>
                  · simp [hm, hst, ht] at hq
                    subst hq
                    exact ⟨h, _, rfl, rfl, by simp [hm, hst, ht]⟩
      · simp [h1, h2] at hq

/-- C9 witness: a probe with unset method, status and timeout validates to
one with method GET, expected status 200 and a 30 second timeout. -/
theorem probe_validate_defaults_witness :
    ∃ h h2, (Probe.mk "p" "http" (some ⟨"u", "", 0, []⟩) 0).http = some h ∧
      (Probe.mk "p" "http" (some ⟨"u", "GET", 200, []⟩) (30 * second)).http =
        some h2 ∧
      h2.url = h.url ∧
      (h.method = "" → h2.method = "GET") ∧
      (h.method ≠ "" → h2.method = h.method) ∧
      (h.expectedStatus = 0 → h2.expectedStatus = 200) ∧
      (h.expectedStatus ≠ 0 → h2.expectedStatus = h.expectedStatus) ∧
      ((Probe.mk "p" "http" (some ⟨"u", "", 0, []⟩) 0).timeout = 0 →
        (Probe.mk "p" "http" (some ⟨"u", "GET", 200, []⟩) (30 * second)).timeout =
          30 * second) ∧
      ((Probe.mk "p" "http" (some ⟨"u", "", 0, []⟩) 0).timeout ≠ 0 →
        (Probe.mk "p" "http" (some ⟨"u", "GET", 200, []⟩) (30 * second)).timeout =
          (Probe.mk "p" "http" (some ⟨"u", "", 0, []⟩) 0).timeout) :=
  (probe_validate_defaults (Probe.mk "p" "http" (some ⟨"u", "", 0, []⟩) 0)).2
    (Probe.mk "p" "http" (some ⟨"u", "GET", 200, []⟩) (30 * second)) (by rfl)

end Gimli
